import Mathlib

/-!
Shallow embedding of the core of the `agner` actor toolkit
(crates `agner-actors` and `agner-sup`), together with theorems that
check the natural-language specification against the code.

Sources embedded:
- `agner-actors/src/system.rs` (`System::send_sys_msg`, `System::wait`,
  `System::link`);
- `agner-actors/src/actor_runner.rs` and `actor_runner/sys_msg.rs`
  (the backend's system-message handling, the shutdown drain, `ActorInfo`);
- `agner-sup/src/fixed/restart_strategy/one_for_one.rs` (the one-for-one
  restart decider);
- `agner-sup/src/mixed/child_spec.rs` (`ChildSpec::new` and the default
  shutdown sequence).

Rust machine types are embedded as `Nat`/`Bool`/`List`; `HashSet` is
embedded as a duplicate-free `List` with set-like insert and remove;
`VecDeque` as a `List` whose head is the queue's front; mpsc/oneshot
channel endpoints as explicit queues resp. numeric identifiers.
-/

namespace Agner

/-- Embeds `ActorID` (system-id, slot-index, generation), cf. the spec's
data model; `agner-actors/src/actor_id.rs` is not under `src/`, the shape
is taken from the spec. -/
structure ActorID where
  system : Nat
  slot : Nat
  generation : Nat
deriving DecidableEq, Repr

/-- Embeds `Exit` / `ExitReason`. Modelled from the spec: the file
`agner-actors/src/exit.rs` is not under `src/`; the spec lists the kinds
`Normal`, `Shutdown{source?}`, `Kill`, `NoActor`, `BackendFailure`,
`Custom`.  `Shutdown {source = none}` and `Shutdown {source = some e}` are
split into the two constructors `shutdown` and `shutdown_with_source`
(mirroring the constructor functions `Exit::shutdown()` and
`Exit::shutdown_with_source(..)` used throughout `src/`). -/
inductive Exit where
  | normal
  | shutdown
  | shutdown_with_source (source : Exit)
  | kill
  | no_actor
  | backend_failure (source : String)
  | custom
deriving DecidableEq, Repr

/-- Modelled from the spec: "Predicate `is_normal` is true for `Normal`"
(`Exit::is_normal`, `exit.rs` not under `src/`). -/
def Exit.is_normal : Exit → Bool
  | .normal => true
  | _ => false

/-- Embeds `enum SysMsg` from `agner-actors/src/actor_runner/sys_msg.rs`.
The oneshot senders carried by `Wait` and `GetInfo` are embedded as
numeric channel identifiers. -/
inductive SysMsg where
  | link (id : ActorID)
  | unlink (id : ActorID)
  | sig_exit (terminated : ActorID) (exit_reason : Exit)
  | wait (tx : Nat)
  | get_info (tx : Nat)
deriving DecidableEq, Repr

/-! ## The one-for-one restart decider
(`agner-sup/src/fixed/restart_strategy/one_for_one.rs`). -/

/-- Embeds `Action` of the restart-strategy interface.  The module file
declaring it is not under `src/`; the constructors and their payloads are
exactly those used by `one_for_one.rs`: `Action::Start(idx)`,
`Action::Stop(idx, id, reason)`, `Action::Exit(reason)`. -/
inductive Action where
  | start (child_idx : Nat)
  | stop (child_idx : Nat) (child_id : ActorID) (exit_reason : Exit)
  | exit (exit_reason : Exit)
deriving DecidableEq, Repr

/-- Embeds `FrequencyPolicy`. Modelled from the spec: "a sliding-window
counter: at most K failures within duration W" (the file defining it is
not under `src/`).  Instants and durations are embedded as `Nat` ticks. -/
structure FrequencyPolicy where
  max_failures : Nat
  window : Nat
deriving DecidableEq, Repr

/-- Embeds `FrequencyStats`: the policy plus the instants of the
failures reported so far that are still within the window. -/
structure FrequencyStats where
  policy : FrequencyPolicy
  failures : List Nat
deriving DecidableEq, Repr

instance : Inhabited FrequencyStats := ⟨⟨⟨0, 0⟩, []⟩⟩

/-- Modelled from the spec: "A failure report returns `true` iff the
window threshold is exceeded" (`FrequencyStats::report` is not under
`src/`).  The failure at instant `at_` is recorded, instants older than
the window are dropped, and the report escalates iff more than
`max_failures` failures remain within the window. -/
def FrequencyStats.report (s : FrequencyStats) (at_ : Nat) : FrequencyStats × Bool :=
  let kept := (s.failures ++ [at_]).filter fun t => at_ < t + s.policy.window
  (⟨s.policy, kept⟩, decide (s.policy.max_failures < kept.length))

/-- Modelled from the spec: a fresh per-child counter with no recorded
failures (`FrequencyPolicy::new_stats`, not under `src/`). -/
def FrequencyPolicy.new_stats (p : FrequencyPolicy) : FrequencyStats := ⟨p, []⟩

/-- Set-like insert for the `HashSet<ActorID>` embedding. -/
def hsInsert (s : List ActorID) (id : ActorID) : List ActorID :=
  if id ∈ s then s else s ++ [id]

/-- Embeds `HashSet::extend`. -/
def hsExtend (s : List ActorID) (ids : List ActorID) : List ActorID :=
  ids.foldl hsInsert s

/-- Embeds `HashSet::remove` (the caller checks membership separately). -/
def hsRemove (s : List ActorID) (id : ActorID) : List ActorID :=
  s.filter fun x => x ≠ id

/-- Embeds `struct OneForOneDecider` (`one_for_one.rs`, lines 16-22). -/
structure OneForOneDecider where
  sup_id : ActorID
  children : List ActorID
  failures : List FrequencyStats
  ignored_exits : List ActorID
  pending : List Action
deriving DecidableEq, Repr

/-- Embeds `struct OneForOne` (`one_for_one.rs`, lines 11-14). -/
structure OneForOne where
  frequency_policy : FrequencyPolicy
deriving DecidableEq, Repr

/-- Embeds `<OneForOne as RestartStrategy>::new_decider`
(`one_for_one.rs`, lines 27-36). -/
def OneForOne.new_decider (s : OneForOne) (sup_id : ActorID) (children : List ActorID) :
    OneForOneDecider :=
  { sup_id
    children
    failures := children.map fun _ => s.frequency_policy.new_stats
    ignored_exits := []
    pending := [] }

/-- Embeds `OneForOneDecider::next_action` (`one_for_one.rs`, lines
40-42): `self.pending.pop_front()`. -/
def OneForOneDecider.next_action (d : OneForOneDecider) : Option Action × OneForOneDecider :=
  match d.pending with
  | [] => (none, d)
  | a :: rest => (some a, { d with pending := rest })

/-- Embeds `OneForOneDecider::child_up` (`one_for_one.rs`, lines 43-45). -/
def OneForOneDecider.child_up (d : OneForOneDecider) (child_idx : Nat) (actor_id : ActorID) :
    OneForOneDecider :=
  { d with children := d.children.set child_idx actor_id }

/-- Embeds `OneForOneDecider::initiate_shutdown` (`one_for_one.rs`,
lines 84-102): `self.pending.clear()`, then extend with
`Stop(n-1, id, shutdown_with_source(reason)) … Stop(0, …)` (the children
enumerated in reverse) chained with `[Exit(reason)]`. -/
def OneForOneDecider.initiate_shutdown (d : OneForOneDecider) (exit_reason : Exit) :
    OneForOneDecider :=
  { d with
    pending :=
      (d.children.enum.reverse.map fun p =>
        Action.stop p.1 p.2 (Exit.shutdown_with_source exit_reason))
      ++ [Action.exit exit_reason] }

/-- The action sequence `initiate_shutdown` installs: `Stop` for every
child in reverse index order, then `Exit`. -/
def shutdownSeq (children : List ActorID) (exit_reason : Exit) : List Action :=
  (children.enum.reverse.map fun p =>
    Action.stop p.1 p.2 (Exit.shutdown_with_source exit_reason))
  ++ [Action.exit exit_reason]

/-- Embeds `OneForOneDecider::actor_down` (`one_for_one.rs`, lines
46-80).  `self.failures[idx]` is embedded as `getD idx default`; the
source indexes a slice whose length equals `children.length` by
construction. -/
def OneForOneDecider.actor_down (d : OneForOneDecider) (at_ : Nat) (actor_id : ActorID)
    (exit_reason : Exit) : OneForOneDecider :=
  if d.sup_id = actor_id then
    d.initiate_shutdown exit_reason
  else if actor_id ∈ d.ignored_exits then
    { d with ignored_exits := hsRemove d.ignored_exits actor_id }
  else
    match d.children.findIdx? (fun id => decide (id = actor_id)) with
    | some idx =>
      let rb := (d.failures.getD idx default).report at_
      let d1 := { d with failures := d.failures.set idx rb.1 }
      if rb.2 then
        { d1 with ignored_exits := hsExtend d1.ignored_exits d1.children
        }.initiate_shutdown (Exit.shutdown_with_source exit_reason)
      else
        { d1 with pending := d1.pending ++ [Action.start idx] }
    | none =>
      { d with ignored_exits := hsExtend d.ignored_exits d.children
      }.initiate_shutdown exit_reason

/-- Pulls actions via `next_action` until it yields `None`; the fuel
argument bounds the recursion by the queue length. -/
def drainAux : Nat → OneForOneDecider → List Action
  | 0, _ => []
  | n + 1, d =>
    match d.next_action with
    | (none, _) => []
    | (some a, d') => a :: drainAux n d'

/-- The whole action sequence the supervisor would pull from the decider
by calling `next_action` repeatedly. -/
def OneForOneDecider.drain (d : OneForOneDecider) : List Action :=
  drainAux d.pending.length d

/-! ## The system façade (`agner-actors/src/system.rs`). -/

/-- The system-message mpsc channel held by a slot record, embedded as a
closed flag plus the queue of messages accepted so far.
`UnboundedSender::send` succeeds iff the channel is not closed. -/
structure SysChannel where
  closed : Bool
  queue : List SysMsg
deriving DecidableEq, Repr

/-- Embeds the slot record `ActorEntry`.  Its file
(`system/actor_entry.rs`) is not under `src/`; the shape is modelled from
the spec's data model and from the call `ActorEntry::new(actor_id_lease,
messages_tx, sys_msg_tx)` in `System::spawn`: a present entry carries the
live `ActorID` together with its senders (the user-message sender is
irrelevant to the claims below and omitted). -/
structure ActorEntry where
  running_actor_id : ActorID
  sys_msg_ch : SysChannel
deriving DecidableEq, Repr

/-- Embeds the entry table of `Inner`: `actor_entries` indexed by slot
number, each cell possibly vacant. -/
structure SystemState where
  entries : List (Option ActorEntry)
deriving DecidableEq, Repr

/-- Embeds `System::actor_entry_read` (its file is not under `src/`;
modelled from the spec: "read(id) — resolves to the entry if present").
The slot index of the id selects the cell. -/
def SystemState.actor_entry_read (sys : SystemState) (to_ : ActorID) : Option ActorEntry :=
  match sys.entries[to_.slot]? with
  | some (some entry) => some entry
  | _ => none

/-- Embeds `System::send_sys_msg` (`system.rs`, lines 150-159): resolve
the entry, require `entry.running_actor_id() == Some(to)`, then
`tx.send(sys_msg).is_ok()`; every failure path returns `false` and leaves
the state unchanged. -/
def SystemState.send_sys_msg (sys : SystemState) (to_ : ActorID) (sys_msg : SysMsg) :
    SystemState × Bool :=
  match sys.actor_entry_read to_ with
  | some entry =>
    if entry.running_actor_id = to_ then
      if entry.sys_msg_ch.closed then (sys, false)
      else
        (⟨sys.entries.set to_.slot
            (some { entry with
              sys_msg_ch := { entry.sys_msg_ch with
                queue := entry.sys_msg_ch.queue ++ [sys_msg] } })⟩,
          true)
    else (sys, false)
  | none => (sys, false)

/-- Whether a system message sent to `to` would be accepted: the slot
holds an entry, the running id matches, and the channel is open. -/
def SystemState.deliverable (sys : SystemState) (to_ : ActorID) : Bool :=
  match sys.actor_entry_read to_ with
  | some entry => decide (entry.running_actor_id = to_) && !entry.sys_msg_ch.closed
  | none => false

/-- The system-message queue currently held for `to` (empty when the slot
is vacant). -/
def SystemState.sys_queue (sys : SystemState) (to_ : ActorID) : List SysMsg :=
  match sys.actor_entry_read to_ with
  | some entry => entry.sys_msg_ch.queue
  | none => []

/-- The future returned by `System::wait`, embedded by its observable
shape: either already resolved to an exit reason, or awaiting the oneshot
receiver paired with the sender that was enqueued. -/
inductive WaitFut where
  | ready (exit_reason : Exit)
  | awaiting_rx (rx : Nat)
deriving DecidableEq, Repr

/-- Embeds `System::wait` (`system.rs`, lines 131-143).  The fresh
oneshot channel is embedded by the identifier `tx`; `rx.await` is
embedded as `WaitFut.awaiting_rx tx`. -/
def SystemState.wait (sys : SystemState) (actor_id : ActorID) (tx : Nat) :
    SystemState × WaitFut :=
  let sent := sys.send_sys_msg actor_id (SysMsg.wait tx)
  if sent.2 then (sent.1, WaitFut.awaiting_rx tx)
  else (sent.1, WaitFut.ready Exit.no_actor)

/-- Embeds `System::link` (`system.rs`, lines 189-199): send `Link` to
both sides, then compensate each failed delivery with a
`SigExit(peer, no_actor)` to the other side. -/
def SystemState.link (sys : SystemState) (left right : ActorID) : SystemState :=
  let r1 := sys.send_sys_msg left (SysMsg.link right)
  let r2 := r1.1.send_sys_msg right (SysMsg.link left)
  let s3 :=
    if r2.2 then r2.1
    else (r2.1.send_sys_msg left (SysMsg.sig_exit right Exit.no_actor)).1
  if r1.2 then s3
  else (s3.send_sys_msg right (SysMsg.sig_exit left Exit.no_actor)).1

/-! ## The actor runner's backend
(`agner-actors/src/actor_runner.rs`, `actor_runner/sys_msg.rs`). -/

/-- Embeds the bounded `pipe` of the runner: the buffered items and the
capacity.  `Pipe::len()` returns `(current, capacity)`. -/
structure Pipe (α : Type) where
  buf : List α
  capacity : Nat
deriving DecidableEq, Repr

/-- Embeds `Pipe::len`. -/
def Pipe.len (p : Pipe α) : Nat × Nat := (p.buf.length, p.capacity)

/-- Embeds `Watches` (`actor_runner/watches.rs`, not under `src/`;
modelled from the spec's link set: peer ids plus the `trap_exit` flag,
matching the uses `self.watches.trap_exit` and `self.watches.links` in
`actor_runner.rs`). -/
structure Watches where
  links : List ActorID
  trap_exit : Bool
deriving DecidableEq, Repr

/-- Embeds `struct ActorInfo` as declared in
`actor_runner/sys_msg.rs`, lines 18-29.  Note: the struct literal built
by `Backend::handle_sys_msg_get_info` in `actor_runner.rs` names three
further fields (`behaviour`, `args_type`, `message_type`) that this
declaration does not have, and omits `waits_len` which it does have; the
two files are from different revisions and are mutually inconsistent.
This embedding follows the declaration, which is the payload type of
`SysMsg::GetInfo`'s oneshot sender. -/
structure ActorInfo where
  actor_id : ActorID
  m_queue_len : Nat × Nat
  s_queue_len : Nat × Nat
  c_queue_len : Nat × Nat
  tasks_count : Nat
  trap_exit : Bool
  links : List ActorID
  waits_len : Nat
deriving DecidableEq, Repr

/-- Field names of `struct ActorInfo` as declared in
`actor_runner/sys_msg.rs` (lines 18-29), in declaration order. -/
def actorInfoStructFields : List String :=
  ["actor_id", "m_queue_len", "s_queue_len", "c_queue_len",
   "tasks_count", "trap_exit", "links", "waits_len"]

/-- Field names assigned by the struct literal in
`Backend::handle_sys_msg_get_info` (`actor_runner.rs`, lines 235-248),
in assignment order. -/
def getInfoLiteralFields : List String :=
  ["actor_id", "behaviour", "args_type", "message_type",
   "m_queue_len", "s_queue_len", "c_queue_len",
   "tasks_count", "trap_exit", "links"]

/-- The state of `Backend` observable by the claims: the inbox pipes'
write/read ends, the attached-future set (by its count), the watches, and
the registered `Wait` senders.  Messages and signals are embedded by
numeric identifiers. -/
structure BackendState where
  actor_id : ActorID
  inbox_w : Pipe Nat
  signals_w : Pipe Nat
  calls_r : Pipe Nat
  tasks_count : Nat
  watches : Watches
  waits : List Nat
deriving DecidableEq, Repr

/-- Embeds `Backend::handle_sys_msg_get_info` (`actor_runner.rs`, lines
231-251), retargeted at the `ActorInfo` declaration of `sys_msg.rs`: the
fields the two revisions share are filled exactly as in the source
(`inbox_w.len()`, `signals_w.len()`, `calls_r.len()`, `tasks.len()`,
`watches.trap_exit`, `watches.links`); `waits_len`, absent from the
source literal, is filled with the number of registered `Wait` senders
as the field's name and the spec prescribe. -/
def BackendState.handle_sys_msg_get_info (st : BackendState) : ActorInfo :=
  { actor_id := st.actor_id
    m_queue_len := st.inbox_w.len
    s_queue_len := st.signals_w.len
    c_queue_len := st.calls_r.len
    tasks_count := st.tasks_count
    trap_exit := st.watches.trap_exit
    links := st.watches.links
    waits_len := st.waits.length }

/-- The outgoing effect of handling one system message during the
shutdown drain: a system message sent to a peer, a reply on a `GetInfo`
oneshot, or nothing. -/
inductive ShutdownEffect where
  | send_to (to_ : ActorID) (sys_msg : SysMsg)
  | reply_info (tx : Nat) (info : ActorInfo)
  | discard
deriving DecidableEq, Repr

/-- Embeds `Backend::handle_sys_msg_on_shutdown` (`actor_runner.rs`,
lines 187-202).  The `wait` arm does not appear in that match (the file
predates the `Wait` variant); it is modelled from the spec: "other kinds
→ discard", and "`Wait` senders to be drained during shutdown". -/
def BackendState.handle_sys_msg_on_shutdown (st : BackendState) (sys_msg : SysMsg)
    (exit_reason : Exit) : ShutdownEffect :=
  match sys_msg with
  | .link linked =>
    if exit_reason.is_normal then
      ShutdownEffect.send_to linked (SysMsg.unlink st.actor_id)
    else
      ShutdownEffect.send_to linked (SysMsg.sig_exit st.actor_id exit_reason)
  | .get_info report_to =>
    ShutdownEffect.reply_info report_to st.handle_sys_msg_get_info
  | .unlink _ => ShutdownEffect.discard
  | .sig_exit _ _ => ShutdownEffect.discard
  | .wait _ => ShutdownEffect.discard

/-- Modelled from the spec: "`Wait(tx)` — register; honored at exit by
delivering the final reason".  `Backend::handle_sys_msg` in
`actor_runner.rs` has no `Wait` arm (the file predates the variant
declared in `sys_msg.rs`), so the registration step is taken from the
spec: the sender is appended to the registered waiters. -/
def BackendState.handle_sys_msg_wait (st : BackendState) (tx : Nat) : BackendState :=
  { st with waits := st.waits ++ [tx] }

/-- Modelled from the spec: "Notify the Entry Table of termination; this
wakes all `Wait` receivers with `R`" (`System::actor_entry_terminate`
lives in a file that is not under `src/`).  The result lists, for each
registered sender, the delivery of the final exit reason. -/
def BackendState.terminate_wake_waiters (st : BackendState) (exit_reason : Exit) :
    List (Nat × Exit) :=
  st.waits.map fun tx => (tx, exit_reason)

/-! ## Child specifications (`agner-sup/src/mixed/child_spec.rs`). -/

/-- Embeds `std::time::Duration` by whole milliseconds. -/
structure Duration where
  millis : Nat
deriving DecidableEq, Repr

/-- Embeds `Duration::from_secs`. -/
def Duration.from_secs (secs : Nat) : Duration := ⟨secs * 1000⟩

/-- Embeds `DEFAULT_SHUTDOWN_TIMEOUT` (`child_spec.rs`, line 7). -/
def DEFAULT_SHUTDOWN_TIMEOUT : Duration := Duration.from_secs 5

/-- Embeds `DEFAULT_KILL_TIMEOUT` (`child_spec.rs`, line 8). -/
def DEFAULT_KILL_TIMEOUT : Duration := Duration.from_secs 5

/-- Embeds `enum ChildType` (`child_spec.rs`, lines 10-15). -/
inductive ChildType where
  | permanent
  | transient
  | temporary
deriving DecidableEq, Repr

/-- Embeds `struct ChildSpec<ID>` (`child_spec.rs`, lines 17-23).  The
boxed `ProduceChild` factory is type-erased in the source; it is embedded
by an opaque type parameter `P`. -/
structure ChildSpec (ID P : Type) where
  id : ID
  produce : P
  child_type : ChildType
  shutdown : List (Exit × Duration)

/-- Embeds `ChildSpec::new` (`child_spec.rs`, lines 26-37). -/
def ChildSpec.new (id : ID) (produce : P) : ChildSpec ID P :=
  { id
    produce
    child_type := ChildType.permanent
    shutdown :=
      [(Exit.shutdown, DEFAULT_SHUTDOWN_TIMEOUT),
       (Exit.kill, DEFAULT_KILL_TIMEOUT)] }

/-! ## Concrete fixtures used by the witness theorems. -/

/-- A sample supervisor id (system 1, slot 0, generation 0). -/
def aidSup : ActorID := ⟨1, 0, 0⟩

/-- A sample child id occupying slot 1. -/
def aidC0 : ActorID := ⟨1, 1, 0⟩

/-- A sample child id occupying slot 2. -/
def aidC1 : ActorID := ⟨1, 2, 0⟩

/-- A sample id known to no decider and no entry table. -/
def aidUnknown : ActorID := ⟨1, 7, 3⟩

/-- A sample frequency policy: at most one failure per 10 ticks. -/
def samplePolicy : FrequencyPolicy := ⟨1, 10⟩

/-- A freshly created one-for-one decider over two children. -/
def sampleDecider : OneForOneDecider :=
  OneForOne.new_decider ⟨samplePolicy⟩ aidSup [aidC0, aidC1]

/-- The sample decider with one child's exit marked as expected. -/
def sampleDeciderIgnoring : OneForOneDecider :=
  { sampleDecider with ignored_exits := [aidC1] }

/-- The sample decider with both children already at the failure limit. -/
def sampleDeciderLoaded : OneForOneDecider :=
  { sampleDecider with failures := [⟨samplePolicy, [0]⟩, ⟨samplePolicy, [0]⟩] }

/-- An open, empty system-message channel. -/
def chOpen : SysChannel := ⟨false, []⟩

/-- A closed system-message channel. -/
def chClosed : SysChannel := ⟨true, []⟩

/-- A system with two live actors in slots 0 and 1. -/
def sysBoth : SystemState := ⟨[some ⟨aidSup, chOpen⟩, some ⟨aidC0, chOpen⟩]⟩

/-- A system where only slot 0 is occupied; `aidC0`'s slot is vacant. -/
def sysOnlyLeft : SystemState := ⟨[some ⟨aidSup, chOpen⟩, none]⟩

/-- A system whose only actor's system-message channel is closed. -/
def sysClosed : SystemState := ⟨[some ⟨aidSup, chClosed⟩]⟩

/-- A sample backend state for a running actor. -/
def sampleBackend : BackendState :=
  ⟨aidC0, ⟨[], 1024⟩, ⟨[], 16⟩, ⟨[], 1⟩, 0, ⟨[aidSup], false⟩, []⟩

/-! ## Helper lemmas. -/

/-- Folding a batch of `Wait` registrations appends all the senders. -/
theorem foldl_handle_sys_msg_wait_waits (txs : List Nat) :
    ∀ st : BackendState,
      (txs.foldl BackendState.handle_sys_msg_wait st).waits = st.waits ++ txs := by
  induction txs with
  | nil => intro st; simp
  | cons a as ih =>
    intro st
    simp [List.foldl_cons, BackendState.handle_sys_msg_wait, ih]

/-- `drainAux` pulls exactly the first `n` pending actions. -/
theorem drainAux_eq_take (n : Nat) :
    ∀ d : OneForOneDecider, drainAux n d = d.pending.take n := by
  induction n with
  | zero => intro d; rfl
  | succ n ih =>
    intro d
    cases hp : d.pending with
    | nil => simp [drainAux, OneForOneDecider.next_action, hp]
    | cons a rest => simp [drainAux, OneForOneDecider.next_action, hp, ih]

/-- `drain` yields the whole pending queue in order. -/
theorem OneForOneDecider.drain_eq_pending (d : OneForOneDecider) :
    d.drain = d.pending := by
  rw [OneForOneDecider.drain, drainAux_eq_take, List.take_length]

/-- Reading an entry resolves the slot cell. -/
theorem actor_entry_read_eq_some (sys : SystemState) (to_ : ActorID) (entry : ActorEntry) :
    sys.actor_entry_read to_ = some entry ↔
      sys.entries[to_.slot]? = some (some entry) := by
  constructor
  · intro h
    unfold SystemState.actor_entry_read at h
    split at h
    · next e heq =>
      cases h
      exact heq
    · exact absurd h (by simp)
  · intro h
    unfold SystemState.actor_entry_read
    rw [h]

/-- Deliverability unfolded: an entry is present, runs the queried id,
and its channel is open. -/
theorem deliverable_iff (sys : SystemState) (to_ : ActorID) :
    sys.deliverable to_ = true ↔
      ∃ entry, sys.actor_entry_read to_ = some entry ∧
        entry.running_actor_id = to_ ∧ entry.sys_msg_ch.closed = false := by
  cases h : sys.actor_entry_read to_ with
  | none => simp [SystemState.deliverable, h]
  | some entry => simp [SystemState.deliverable, h, Bool.and_eq_true, Bool.not_eq_true']

/-- The Boolean result of `send_sys_msg` is exactly deliverability. -/
theorem send_sys_msg_snd (sys : SystemState) (to_ : ActorID) (m : SysMsg) :
    (sys.send_sys_msg to_ m).2 = sys.deliverable to_ := by
  cases h : sys.actor_entry_read to_ with
  | none => simp [SystemState.send_sys_msg, SystemState.deliverable, h]
  | some entry =>
    by_cases hrun : entry.running_actor_id = to_
    · cases hcl : entry.sys_msg_ch.closed with
      | false => simp [SystemState.send_sys_msg, SystemState.deliverable, h, hrun, hcl]
      | true => simp [SystemState.send_sys_msg, SystemState.deliverable, h, hrun, hcl]
    · simp [SystemState.send_sys_msg, SystemState.deliverable, h, hrun]

/-- A failed `send_sys_msg` leaves the system untouched. -/
theorem send_sys_msg_fst_of_fail (sys : SystemState) (to_ : ActorID) (m : SysMsg)
    (hdel : sys.deliverable to_ = false) :
    (sys.send_sys_msg to_ m).1 = sys := by
  cases h : sys.actor_entry_read to_ with
  | none => simp [SystemState.send_sys_msg, h]
  | some entry =>
    by_cases hrun : entry.running_actor_id = to_
    · cases hcl : entry.sys_msg_ch.closed with
      | false =>
        exact absurd hdel (by simp [SystemState.deliverable, h, hrun, hcl])
      | true => simp [SystemState.send_sys_msg, h, hrun, hcl]
    · simp [SystemState.send_sys_msg, h, hrun]

/-- How `send_sys_msg` transforms the entry table, seen through
`actor_entry_read`: on success the target slot's queue gains the message,
every other slot is untouched. -/
theorem actor_entry_read_send (sys : SystemState) (to_ : ActorID) (m : SysMsg)
    (id : ActorID) :
    (sys.send_sys_msg to_ m).1.actor_entry_read id =
      (if sys.deliverable to_ = true ∧ id.slot = to_.slot then
        (sys.actor_entry_read to_).map fun entry =>
          { entry with sys_msg_ch := { entry.sys_msg_ch with
              queue := entry.sys_msg_ch.queue ++ [m] } }
      else sys.actor_entry_read id) := by
  by_cases hdel : sys.deliverable to_ = true
  · obtain ⟨entry, hread, hrun, hcl⟩ := (deliverable_iff sys to_).mp hdel
    have hcell : sys.entries[to_.slot]? = some (some entry) :=
      (actor_entry_read_eq_some sys to_ entry).mp hread
    have hlt : to_.slot < sys.entries.length := (List.getElem?_eq_some.mp hcell).1
    have hfst : (sys.send_sys_msg to_ m).1 =
        ⟨sys.entries.set to_.slot
          (some { entry with sys_msg_ch := { entry.sys_msg_ch with
            queue := entry.sys_msg_ch.queue ++ [m] } })⟩ := by
      simp [SystemState.send_sys_msg, hread, hrun, hcl]
    by_cases hslot : id.slot = to_.slot
    · rw [if_pos ⟨hdel, hslot⟩, hread, hfst]
      unfold SystemState.actor_entry_read
      rw [hslot, List.getElem?_set_eq_of_lt _ hlt]
      rfl
    · rw [if_neg (fun hh => hslot hh.2), hfst]
      unfold SystemState.actor_entry_read
      rw [List.getElem?_set_ne (fun hh => hslot hh.symm)]
  · have hdel' : sys.deliverable to_ = false := by
      cases hb : sys.deliverable to_ with
      | false => rfl
      | true => exact absurd hb hdel
    rw [if_neg (fun hh => hdel hh.1), send_sys_msg_fst_of_fail sys to_ m hdel']

/-- Deliverability only depends on the entry the id resolves to. -/
theorem deliverable_congr (s s' : SystemState) (id : ActorID)
    (h : s.actor_entry_read id = s'.actor_entry_read id) :
    s.deliverable id = s'.deliverable id := by
  unfold SystemState.deliverable
  rw [h]

/-- The observed queue only depends on the entry the id resolves to. -/
theorem sys_queue_congr (s s' : SystemState) (id : ActorID)
    (h : s.actor_entry_read id = s'.actor_entry_read id) :
    s.sys_queue id = s'.sys_queue id := by
  unfold SystemState.sys_queue
  rw [h]

/-- `send_sys_msg` never changes which ids are deliverable. -/
theorem send_preserves_deliverable (sys : SystemState) (to_ : ActorID) (m : SysMsg)
    (id : ActorID) :
    (sys.send_sys_msg to_ m).1.deliverable id = sys.deliverable id := by
  have hr := actor_entry_read_send sys to_ m id
  by_cases hcase : sys.deliverable to_ = true ∧ id.slot = to_.slot
  · obtain ⟨hdel, hslot⟩ := hcase
    obtain ⟨entry, hread, hrun, hcl⟩ := (deliverable_iff sys to_).mp hdel
    rw [if_pos ⟨hdel, hslot⟩, hread] at hr
    have hread_id : sys.actor_entry_read id = some entry := by
      unfold SystemState.actor_entry_read at hread ⊢
      rw [hslot]
      exact hread
    unfold SystemState.deliverable
    rw [hr, hread_id]
    rfl
  · rw [if_neg hcase] at hr
    exact deliverable_congr _ _ _ hr

/-- On a successful send, the target's queue gains exactly the sent
message, at the back. -/
theorem send_queue_at_target (sys : SystemState) (to_ : ActorID) (m : SysMsg)
    (hdel : sys.deliverable to_ = true) :
    (sys.send_sys_msg to_ m).1.sys_queue to_ = sys.sys_queue to_ ++ [m] := by
  obtain ⟨entry, hread, hrun, hcl⟩ := (deliverable_iff sys to_).mp hdel
  have hr := actor_entry_read_send sys to_ m to_
  rw [if_pos ⟨hdel, rfl⟩, hread] at hr
  unfold SystemState.sys_queue
  rw [hr, hread]
  rfl

/-- Sending to one slot leaves the queues of all other slots alone. -/
theorem send_queue_at_other (sys : SystemState) (to_ : ActorID) (m : SysMsg)
    (id : ActorID) (hslot : id.slot ≠ to_.slot) :
    (sys.send_sys_msg to_ m).1.sys_queue id = sys.sys_queue id := by
  have hr := actor_entry_read_send sys to_ m id
  rw [if_neg (fun hh => hslot hh.2)] at hr
  exact sys_queue_congr _ _ _ hr

/-- Two distinct deliverable ids occupy distinct slots. -/
theorem deliverable_slot_ne (sys : SystemState) (a b : ActorID)
    (ha : sys.deliverable a = true) (hb : sys.deliverable b = true) (hab : a ≠ b) :
    a.slot ≠ b.slot := by
  intro hs
  obtain ⟨ea, hra, hrna, _⟩ := (deliverable_iff sys a).mp ha
  obtain ⟨eb, hrb, hrnb, _⟩ := (deliverable_iff sys b).mp hb
  have hsame : sys.actor_entry_read a = sys.actor_entry_read b := by
    unfold SystemState.actor_entry_read
    rw [hs]
  rw [hra, hrb] at hsame
  injection hsame with hsame
  exact hab (by rw [← hrna, hsame, hrnb])

/-! ## Claim theorems. -/

/-- C1: when the runner receives `SysMsg::Wait(tx)` it registers the
sender, and upon termination the final exit reason is delivered to every
registered `Wait` sender.  Stated over any backend state and any batch of
received `Wait` messages: registration appends the sender, and the
termination notification delivers the final reason to each sender of the
batch. -/
theorem wait_registered_and_honored_at_exit (st : BackendState) (txs : List Nat)
    (exit_reason : Exit) (tx : Nat) (h : tx ∈ txs) :
    (st.handle_sys_msg_wait tx).waits = st.waits ++ [tx] ∧
    (tx, exit_reason) ∈
      (txs.foldl BackendState.handle_sys_msg_wait st).terminate_wake_waiters exit_reason := by
  refine ⟨rfl, ?_⟩
  rw [BackendState.terminate_wake_waiters, foldl_handle_sys_msg_wait_waits]
  exact List.mem_map.mpr ⟨tx, List.mem_append.mpr (Or.inr h), rfl⟩

/-- Witness for C1: a single registered sender receives the final
reason. -/
theorem wait_registered_and_honored_at_exit_witness :
    (7 : Nat) ∈ [7] ∧
    ((sampleBackend.handle_sys_msg_wait 7).waits = sampleBackend.waits ++ [7] ∧
      (7, Exit.normal) ∈
        (([7] : List Nat).foldl BackendState.handle_sys_msg_wait
            sampleBackend).terminate_wake_waiters Exit.normal) :=
  ⟨by decide, wait_registered_and_honored_at_exit sampleBackend [7] Exit.normal 7 (by decide)⟩

/-- C2: the inspection record cannot contain all the claimed fields in
the given sources: the struct literal built by
`Backend::handle_sys_msg_get_info` assigns the three type-tag fields,
which the declaration of `struct ActorInfo` does not have, while the
declaration's `waits_len` field is absent from the literal — the two
files contradict each other. -/
theorem get_info_struct_vs_literal_fields :
    ("behaviour" ∈ getInfoLiteralFields ∧ "behaviour" ∉ actorInfoStructFields) ∧
    ("args_type" ∈ getInfoLiteralFields ∧ "args_type" ∉ actorInfoStructFields) ∧
    ("message_type" ∈ getInfoLiteralFields ∧ "message_type" ∉ actorInfoStructFields) ∧
    ("waits_len" ∈ actorInfoStructFields ∧ "waits_len" ∉ getInfoLiteralFields) := by
  decide

/-- C3: the one-for-one decider's `actor_down` cases.  A known child
within the failure budget yields exactly `Start(i)`; an exceeded budget,
an unknown linked actor, or the supervisor's own id yields the pending
queue `Stop(n-1) … Stop(0)` (reverse index order) followed by `Exit`.
The exit reasons are the precise ones the source builds: on an exceeded
budget the escalation reason is `shutdown_with_source(reason)`, otherwise
the triggering reason itself. -/
theorem one_for_one_actor_down_cases (d : OneForOneDecider) (at_ : Nat)
    (actor_id : ActorID) (exit_reason : Exit) (idx : Nat) :
    (d.sup_id = actor_id →
      (d.actor_down at_ actor_id exit_reason).pending =
        shutdownSeq d.children exit_reason) ∧
    (d.sup_id ≠ actor_id → actor_id ∉ d.ignored_exits →
      d.children.findIdx? (fun id => decide (id = actor_id)) = some idx →
      ((d.failures.getD idx default).report at_).2 = false →
      (d.actor_down at_ actor_id exit_reason).pending =
        d.pending ++ [Action.start idx]) ∧
    (d.sup_id ≠ actor_id → actor_id ∉ d.ignored_exits →
      d.children.findIdx? (fun id => decide (id = actor_id)) = some idx →
      ((d.failures.getD idx default).report at_).2 = true →
      (d.actor_down at_ actor_id exit_reason).pending =
        shutdownSeq d.children (Exit.shutdown_with_source exit_reason)) ∧
    (d.sup_id ≠ actor_id → actor_id ∉ d.ignored_exits →
      d.children.findIdx? (fun id => decide (id = actor_id)) = none →
      (d.actor_down at_ actor_id exit_reason).pending =
        shutdownSeq d.children exit_reason) := by
  refine ⟨?_, ?_, ?_, ?_⟩
  · intro hsup
    simp [OneForOneDecider.actor_down, OneForOneDecider.initiate_shutdown, shutdownSeq, hsup]
  · intro hsup hmem hfind hreport
    rw [List.getD_eq_getElem?_getD] at hreport
    simp [OneForOneDecider.actor_down, hsup, hmem, hfind, hreport]
  · intro hsup hmem hfind hreport
    rw [List.getD_eq_getElem?_getD] at hreport
    simp [OneForOneDecider.actor_down, OneForOneDecider.initiate_shutdown, shutdownSeq,
      hsup, hmem, hfind, hreport]
  · intro hsup hmem hfind
    simp [OneForOneDecider.actor_down, OneForOneDecider.initiate_shutdown, shutdownSeq,
      hsup, hmem, hfind]

/-- Witness for C3: all four cases at concrete deciders — supervisor
down, child within budget, child over budget, unknown id. -/
theorem one_for_one_actor_down_cases_witness :
    (sampleDecider.actor_down 0 aidSup Exit.normal).pending =
      shutdownSeq sampleDecider.children Exit.normal ∧
    (sampleDecider.actor_down 0 aidC1 Exit.custom).pending =
      sampleDecider.pending ++ [Action.start 1] ∧
    (sampleDeciderLoaded.actor_down 1 aidC1 Exit.custom).pending =
      shutdownSeq sampleDeciderLoaded.children (Exit.shutdown_with_source Exit.custom) ∧
    (sampleDecider.actor_down 0 aidUnknown Exit.kill).pending =
      shutdownSeq sampleDecider.children Exit.kill :=
  ⟨(one_for_one_actor_down_cases sampleDecider 0 aidSup Exit.normal 0).1 rfl,
    (one_for_one_actor_down_cases sampleDecider 0 aidC1 Exit.custom 1).2.1
      (by decide) (by decide) (by decide) (by decide),
    (one_for_one_actor_down_cases sampleDeciderLoaded 1 aidC1 Exit.custom 1).2.2.1
      (by decide) (by decide) (by decide) (by decide),
    (one_for_one_actor_down_cases sampleDecider 0 aidUnknown Exit.kill 0).2.2.2
      (by decide) (by decide) (by decide)⟩

/-- C5: during the shutdown-mode drain with final reason `R`, an incoming
`Link(peer)` is answered with `Unlink(self)` when `R` is normal and with
`SigExit(self, R)` otherwise; `GetInfo` is still answered with the info
snapshot; `Unlink` and `SigExit` are discarded. -/
theorem shutdown_drain_handling (st : BackendState) (exit_reason : Exit) (peer : ActorID)
    (tx : Nat) (sender : ActorID) (r2 : Exit) :
    st.handle_sys_msg_on_shutdown (SysMsg.link peer) exit_reason =
      (if exit_reason.is_normal then
        ShutdownEffect.send_to peer (SysMsg.unlink st.actor_id)
      else
        ShutdownEffect.send_to peer (SysMsg.sig_exit st.actor_id exit_reason)) ∧
    st.handle_sys_msg_on_shutdown (SysMsg.get_info tx) exit_reason =
      ShutdownEffect.reply_info tx st.handle_sys_msg_get_info ∧
    st.handle_sys_msg_on_shutdown (SysMsg.unlink sender) exit_reason =
      ShutdownEffect.discard ∧
    st.handle_sys_msg_on_shutdown (SysMsg.sig_exit sender r2) exit_reason =
      ShutdownEffect.discard :=
  ⟨rfl, rfl, rfl, rfl⟩

/-- C8: an `actor_down` for an id in `ignored_exits` (other than the
supervisor's own id, which takes precedence in the source) is absorbed:
no action is emitted, no failure is counted; the id is merely removed
from the set. -/
theorem one_for_one_ignored_exit_absorbed (d : OneForOneDecider) (at_ : Nat)
    (actor_id : ActorID) (exit_reason : Exit) (hsup : d.sup_id ≠ actor_id)
    (hmem : actor_id ∈ d.ignored_exits) :
    (d.actor_down at_ actor_id exit_reason).pending = d.pending ∧
    (d.actor_down at_ actor_id exit_reason).failures = d.failures ∧
    (d.actor_down at_ actor_id exit_reason).children = d.children ∧
    (d.actor_down at_ actor_id exit_reason).ignored_exits =
      hsRemove d.ignored_exits actor_id := by
  simp [OneForOneDecider.actor_down, hsup, hmem]

/-- Witness for C8: an expected child exit leaves the decider's queue,
counters and children untouched. -/
theorem one_for_one_ignored_exit_absorbed_witness :
    (sampleDeciderIgnoring.actor_down 0 aidC1 Exit.custom).pending =
      sampleDeciderIgnoring.pending ∧
    (sampleDeciderIgnoring.actor_down 0 aidC1 Exit.custom).failures =
      sampleDeciderIgnoring.failures ∧
    (sampleDeciderIgnoring.actor_down 0 aidC1 Exit.custom).children =
      sampleDeciderIgnoring.children ∧
    (sampleDeciderIgnoring.actor_down 0 aidC1 Exit.custom).ignored_exits =
      hsRemove sampleDeciderIgnoring.ignored_exits aidC1 :=
  one_for_one_ignored_exit_absorbed sampleDeciderIgnoring 0 aidC1 Exit.custom
    (by decide) (by decide)

/-- C9: `ChildSpec::new` defaults the shutdown sequence to
`[(Shutdown, 5 s), (Kill, 5 s)]` in that order. -/
theorem child_spec_new_default_shutdown (ID P : Type) (id : ID) (produce : P) :
    (ChildSpec.new id produce).shutdown =
      [(Exit.shutdown, Duration.from_secs 5), (Exit.kill, Duration.from_secs 5)] ∧
    (ChildSpec.new id produce).shutdown =
      [(Exit.shutdown, DEFAULT_SHUTDOWN_TIMEOUT), (Exit.kill, DEFAULT_KILL_TIMEOUT)] :=
  ⟨rfl, rfl⟩

/-- C10: `initiate_shutdown` discards the entire pending queue —
whatever actions it held, including not-yet-executed `Start`s — and from
then on `next_action` yields exactly `Stop(n-1) … Stop(0)` followed by
`Exit`. -/
theorem initiate_shutdown_clears_pending (d : OneForOneDecider) (exit_reason : Exit) :
    (d.initiate_shutdown exit_reason).pending = shutdownSeq d.children exit_reason ∧
    (d.initiate_shutdown exit_reason).drain = shutdownSeq d.children exit_reason :=
  ⟨rfl, by rw [OneForOneDecider.drain_eq_pending]; rfl⟩

/-- C4: `System::link(a, b)` sends `Link(b)` to `a` and `Link(a)` to `b`;
when both deliveries succeed the two queues gain exactly those messages,
and when exactly one fails, the accepting side's queue additionally gains
the compensating `SigExit(failedPeer, NoActor)`. -/
theorem system_link_spec (sys : SystemState) (a b : ActorID) :
    (sys.deliverable a = true → sys.deliverable b = true → a ≠ b →
      (sys.link a b).sys_queue a = sys.sys_queue a ++ [SysMsg.link b] ∧
      (sys.link a b).sys_queue b = sys.sys_queue b ++ [SysMsg.link a]) ∧
    (sys.deliverable a = true → sys.deliverable b = false →
      (sys.link a b).sys_queue a =
        sys.sys_queue a ++ [SysMsg.link b, SysMsg.sig_exit b Exit.no_actor]) ∧
    (sys.deliverable b = true → sys.deliverable a = false →
      (sys.link a b).sys_queue b =
        sys.sys_queue b ++ [SysMsg.link a, SysMsg.sig_exit a Exit.no_actor]) := by
  refine ⟨?_, ?_, ?_⟩
  · intro ha hb hab
    have hslot := deliverable_slot_ne sys a b ha hb hab
    have h1snd : (sys.send_sys_msg a (SysMsg.link b)).2 = true := by
      rw [send_sys_msg_snd]; exact ha
    have h2del : (sys.send_sys_msg a (SysMsg.link b)).1.deliverable b = true := by
      rw [send_preserves_deliverable]; exact hb
    have h2snd :
        ((sys.send_sys_msg a (SysMsg.link b)).1.send_sys_msg b (SysMsg.link a)).2 = true := by
      rw [send_sys_msg_snd]; exact h2del
    have hlink : sys.link a b =
        ((sys.send_sys_msg a (SysMsg.link b)).1.send_sys_msg b (SysMsg.link a)).1 := by
      simp [SystemState.link, h1snd, h2snd]
    constructor
    · rw [hlink, send_queue_at_other _ _ _ a hslot, send_queue_at_target _ _ _ ha]
    · rw [hlink, send_queue_at_target _ _ _ h2del,
        send_queue_at_other _ _ _ b (Ne.symm hslot)]
  · intro ha hb
    have h1snd : (sys.send_sys_msg a (SysMsg.link b)).2 = true := by
      rw [send_sys_msg_snd]; exact ha
    have h2del : (sys.send_sys_msg a (SysMsg.link b)).1.deliverable b = false := by
      rw [send_preserves_deliverable]; exact hb
    have h2snd :
        ((sys.send_sys_msg a (SysMsg.link b)).1.send_sys_msg b (SysMsg.link a)).2 = false := by
      rw [send_sys_msg_snd]; exact h2del
    have h2fst :
        ((sys.send_sys_msg a (SysMsg.link b)).1.send_sys_msg b (SysMsg.link a)).1 =
          (sys.send_sys_msg a (SysMsg.link b)).1 :=
      send_sys_msg_fst_of_fail _ _ _ h2del
    have hadel : (sys.send_sys_msg a (SysMsg.link b)).1.deliverable a = true := by
      rw [send_preserves_deliverable]; exact ha
    have hlink : sys.link a b =
        ((sys.send_sys_msg a (SysMsg.link b)).1.send_sys_msg a
          (SysMsg.sig_exit b Exit.no_actor)).1 := by
      simp [SystemState.link, h1snd, h2snd, h2fst]
    rw [hlink, send_queue_at_target _ _ _ hadel, send_queue_at_target _ _ _ ha,
      List.append_assoc]
    rfl
  · intro hb ha
    have h1snd : (sys.send_sys_msg a (SysMsg.link b)).2 = false := by
      rw [send_sys_msg_snd]; exact ha
    have h1fst : (sys.send_sys_msg a (SysMsg.link b)).1 = sys :=
      send_sys_msg_fst_of_fail _ _ _ ha
    have h2snd : (sys.send_sys_msg b (SysMsg.link a)).2 = true := by
      rw [send_sys_msg_snd]; exact hb
    have hbdel : (sys.send_sys_msg b (SysMsg.link a)).1.deliverable b = true := by
      rw [send_preserves_deliverable]; exact hb
    have hlink : sys.link a b =
        ((sys.send_sys_msg b (SysMsg.link a)).1.send_sys_msg b
          (SysMsg.sig_exit a Exit.no_actor)).1 := by
      simp [SystemState.link, h1snd, h2snd, h1fst]
    rw [hlink, send_queue_at_target _ _ _ hbdel, send_queue_at_target _ _ _ hb,
      List.append_assoc]
    rfl

/-- Witness for C4: in `sysOnlyLeft` the right slot is vacant, so the
left side gets the `Link` followed by the compensating `SigExit`. -/
theorem system_link_spec_witness :
    sysOnlyLeft.deliverable aidSup = true ∧
    sysOnlyLeft.deliverable aidC0 = false ∧
    (sysOnlyLeft.link aidSup aidC0).sys_queue aidSup =
      sysOnlyLeft.sys_queue aidSup ++
        [SysMsg.link aidC0, SysMsg.sig_exit aidC0 Exit.no_actor] :=
  ⟨by decide, by decide,
    (system_link_spec sysOnlyLeft aidSup aidC0).2.1 (by decide) (by decide)⟩

/-- C6: `System::send_sys_msg` returns `false` exactly on slot vacancy,
running-id (generation) mismatch, or a closed channel. -/
theorem send_sys_msg_false_iff (sys : SystemState) (to_ : ActorID) (sys_msg : SysMsg) :
    (sys.send_sys_msg to_ sys_msg).2 = false ↔
      sys.actor_entry_read to_ = none ∨
        ∃ entry, sys.actor_entry_read to_ = some entry ∧
          (entry.running_actor_id ≠ to_ ∨ entry.sys_msg_ch.closed = true) := by
  cases h : sys.actor_entry_read to_ with
  | none => simp [SystemState.send_sys_msg, h]
  | some entry =>
    by_cases hrun : entry.running_actor_id = to_
    · cases hcl : entry.sys_msg_ch.closed with
      | false => simp [SystemState.send_sys_msg, h, hrun, hcl]
      | true => simp [SystemState.send_sys_msg, h, hrun, hcl]
    · simp [SystemState.send_sys_msg, h, hrun]

/-- Witness for C6: a closed channel makes `send_sys_msg` return
`false`. -/
theorem send_sys_msg_false_iff_witness :
    (sysClosed.send_sys_msg aidSup (SysMsg.wait 0)).2 = false :=
  (send_sys_msg_false_iff sysClosed aidSup (SysMsg.wait 0)).mpr
    (Or.inr ⟨⟨aidSup, chClosed⟩, by decide, Or.inr (by decide)⟩)

/-- C7: `System::wait` enqueues a `Wait` system message; when delivery
fails the future is already resolved to `NoActor` (and the system is
untouched — nothing is awaited); when delivery succeeds the future
awaits the oneshot whose sender was enqueued. -/
theorem system_wait_spec (sys : SystemState) (actor_id : ActorID) (tx : Nat) :
    ((sys.send_sys_msg actor_id (SysMsg.wait tx)).2 = false →
      sys.wait actor_id tx = (sys, WaitFut.ready Exit.no_actor)) ∧
    ((sys.send_sys_msg actor_id (SysMsg.wait tx)).2 = true →
      (sys.wait actor_id tx).2 = WaitFut.awaiting_rx tx ∧
      (sys.wait actor_id tx).1.sys_queue actor_id =
        sys.sys_queue actor_id ++ [SysMsg.wait tx]) := by
  constructor
  · intro h
    have hdel : sys.deliverable actor_id = false := by
      rw [← send_sys_msg_snd sys actor_id (SysMsg.wait tx)]; exact h
    have hfst := send_sys_msg_fst_of_fail sys actor_id (SysMsg.wait tx) hdel
    simp [SystemState.wait, h, hfst]
  · intro h
    have hdel : sys.deliverable actor_id = true := by
      rw [← send_sys_msg_snd sys actor_id (SysMsg.wait tx)]; exact h
    constructor
    · simp [SystemState.wait, h]
    · have hfst : (sys.wait actor_id tx).1 =
          (sys.send_sys_msg actor_id (SysMsg.wait tx)).1 := by
        simp [SystemState.wait, h]
      rw [hfst]
      exact send_queue_at_target sys actor_id (SysMsg.wait tx) hdel

/-- Witness for C7: both the failing delivery (vacant slot: the future is
immediately `NoActor`) and the succeeding one (the `Wait` message lands
in the queue and the oneshot is awaited). -/
theorem system_wait_spec_witness :
    sysOnlyLeft.wait aidC0 3 = (sysOnlyLeft, WaitFut.ready Exit.no_actor) ∧
    ((sysOnlyLeft.wait aidSup 4).2 = WaitFut.awaiting_rx 4 ∧
      (sysOnlyLeft.wait aidSup 4).1.sys_queue aidSup =
        sysOnlyLeft.sys_queue aidSup ++ [SysMsg.wait 4]) :=
  ⟨(system_wait_spec sysOnlyLeft aidC0 3).1 (by decide),
    (system_wait_spec sysOnlyLeft aidSup 4).2 (by decide)⟩

end Agner
